import Mathlib

/-!
Verification development for the invoice-forge client-side persistence and
query layer.  The definitions below are shallow embeddings of the TypeScript
source: `src/frontend/src/services/invoiceService.ts` (storage, CRUD, codec,
content-addressed image store), `InvoiceList` (filter / sort engine, total
calculation, date parsing) and `InvoiceForm` (YAML export).

Modelling conventions:
  - JavaScript numbers on record fields are modelled as `Int` (invoice
    number, payment terms) and `Rat` (rates, column widths, totals).
  - JavaScript string truthiness (undefined and the empty string are falsy)
    is modelled by `strTruthy` on `Option String`.
  - `localStorage` is a cell that is either absent, unparseable JSON, or a
    parsed invoice list; a write succeeds iff the `writeOk` flag is set
    (quota exhaustion).  `JSON.parse (JSON.stringify l) = l` is implicit in
    storing the parsed list.
  - IndexedDB is a key-to-payload map `String -> Option String`.
  - `charCodeAt` is modelled by `Char.toNat` (exact on the BMP);
    `toLowerCase` is modelled on the ASCII range.
  - `new Date(y, m, d).getTime()` is modelled by proleptic-Gregorian day
    arithmetic times 86400000 with the local time-zone offset taken as zero;
    the offset is bounded by hours and never reorders dates that differ by
    at least one day, which is the only way dates are compared here.
-/

/-- Truthiness of a JS string value: `undefined` and `""` are falsy. -/
def strTruthy (o : Option String) : Bool := o.getD "" != ""

/-- Models `x || null` on an optional JS string. -/
def jsOrNull (o : Option String) : Option String := if strTruthy o then o else none

/-- Models `x || ""` on an optional JS string: undefined and "" give "". -/
def jsOrEmpty (o : Option String) : String := o.getD ""

/-- Models `a || b` on two plain JS strings. -/
def jsOrStr (a b : String) : String := if a = "" then b else a

/-- Digit run to a natural number, most significant first. -/
def digitsToNat (ds : List Char) : Nat :=
  ds.foldl (fun acc c => acc * 10 + (c.toNat - 48)) 0

/-- Digit character for a value below 36, as produced by JS `toString(36)`:
0-9 then a-z. -/
def natDigitChar (n : Nat) : Char :=
  if n < 10 then Char.ofNat (48 + n) else Char.ofNat (87 + n)

/-- Digits of `n` in base `b`, most significant first, with accumulator. -/
def natToBaseAux (b : Nat) (n : Nat) (acc : List Char) : List Char :=
  if h : n < b ∨ b ≤ 1 then natDigitChar n :: acc
  else natToBaseAux b (n / b) (natDigitChar (n % b) :: acc)
termination_by n
decreasing_by
  push_neg at h
  exact Nat.div_lt_self (by omega) (by omega)

/-- Digits of `n` in base `b`, most significant first. -/
def natToBase (b n : Nat) : List Char := natToBaseAux b n []

/-- Models JS `Number.prototype.toString` radix 10 on an integral value. -/
def jsNumToString (n : Int) : String :=
  if n < 0 then "-" ++ String.mk (natToBase 10 n.natAbs)
  else String.mk (natToBase 10 n.natAbs)

/-- Models JS `Number.prototype.toString(36)` on an integral value. -/
def jsNumToString36 (n : Int) : String :=
  if n < 0 then "-" ++ String.mk (natToBase 36 n.natAbs)
  else String.mk (natToBase 36 n.natAbs)

/-- ToInt32: wrap an integer into the signed 32-bit range. -/
def toInt32 (n : Int) : Int :=
  let m := n % 4294967296
  if m < 2147483648 then m else m - 4294967296

/-- One step of the rolling hash from `hashImage`:
`hash = ((hash << 5) - hash) + char; hash = hash & hash`. -/
def hashStep (hash : Int) (c : Char) : Int :=
  toInt32 (toInt32 (hash * 32) - hash + (c.toNat : Int))

/-- Source `hashImage` (invoiceService.ts lines 83-91): rolling 32-bit hash
of the image data rendered in base 36. -/
def hashImage (imageData : String) : String :=
  jsNumToString36 (imageData.data.foldl hashStep 0)

/-- Models JS `parseInt` with radix 10: skip leading whitespace, optional
sign, then a leading digit run; `none` models NaN. -/
def jsParseInt (s : String) : Option Int :=
  let cs := s.data.dropWhile (fun c => c.isWhitespace)
  let signAndRest : Bool × List Char :=
    match cs with
    | '-' :: rest => (true, rest)
    | '+' :: rest => (false, rest)
    | _ => (false, cs)
  let ds := signAndRest.2.takeWhile (fun c => c.isDigit)
  if ds.isEmpty then none
  else
    let n : Int := (digitsToNat ds : Int)
    some (if signAndRest.1 then -n else n)

/-- ASCII lowercasing of one character, as JS `toLowerCase` acts on A-Z. -/
def jsToLowerChar (c : Char) : Char :=
  if 'A' ≤ c ∧ c ≤ 'Z' then Char.ofNat (c.toNat + 32) else c

/-- Models JS `String.prototype.toLowerCase` on the ASCII range. -/
def jsToLower (s : String) : String := String.mk (s.data.map jsToLowerChar)

/-- Models JS `haystack.includes(needle)`: needle occurs as a contiguous
substring of haystack. -/
def jsIncludes (haystack needle : String) : Bool :=
  haystack.data.tails.any (fun t => needle.data.isPrefixOf t)

/-- The invoice record, from the `Invoice` interface of the frontend
`types/invoice.ts` (the variant with logo-hash and service fields). -/
structure Invoice where
  id : Option String
  client_name : String
  client_address : String
  services : List String
  service_date : Option String
  service_description : Option String
  payment_terms_days : Int
  invoice_number : Int
  invoice_date : String
  company_name : String
  hourly_rate : Rat
  vat_rate : Rat
  account_number : String
  sort_code : String
  bank_address : String
  company_number : String
  vat_number : String
  registered_address : String
  email : String
  contact_number : String
  column_widths : List Rat
  font_name : String
  icon_name : String
  icon_hash : Option String
  icon_data : Option String
  pdf_url : Option String
  paid : Option Bool
deriving DecidableEq, Repr, Inhabited

/-- State of the `localStorage` cell holding the serialized invoice list:
`getItem` returns null (absent), an unparseable string (corrupt), or JSON
that parses back to the stored list (good). -/
inductive StoredCell where
  | absent : StoredCell
  | corrupt : StoredCell
  | good (invoices : List Invoice) : StoredCell
deriving DecidableEq, Repr

/-- Browser storage for the invoice collection.  `writeOk` is whether
`localStorage.setItem` succeeds (false models quota exhaustion). -/
structure BrowserStorage where
  cell : StoredCell
  writeOk : Bool
deriving DecidableEq, Repr

/-- Storage-layer failure raised by `localStorage.setItem`. -/
inductive StorageErr where
  | quotaExceeded : StorageErr
deriving DecidableEq, Repr

/-- The IndexedDB image object store: content key to payload. -/
def ImageStore : Type := String → Option String

/-- The empty image store. -/
def emptyImages : ImageStore := fun _ => none

/-- Source `saveImageToIndexedDB` (lines 29-44): `store.put(imageData,
imageHash)` overwrites the entry at the key. -/
def saveImageToIndexedDB (store : ImageStore) (imageData imageHash : String) : ImageStore :=
  fun k => if k = imageHash then some imageData else store k

/-- Source `getImageFromIndexedDB` (lines 47-62): `store.get(imageHash)`
resolved through `request.result || null` (line 55), so both an absent key
and a stored falsy payload (the empty string) come back as null. -/
def getImageFromIndexedDB (store : ImageStore) (imageHash : String) : Option String :=
  jsOrNull (store imageHash)

/-- The content-addressed put of the asset store, as composed in
`addInvoice` lines 127-131: hash the payload and store it under the hash. -/
def putImage (store : ImageStore) (payload : String) : ImageStore × String :=
  let imageHash := hashImage payload
  (saveImageToIndexedDB store payload imageHash, imageHash)

/-- Source `getInvoices` (lines 94-102): parse the stored JSON, returning
the empty list when the key is absent or parsing throws. -/
def getInvoices (s : BrowserStorage) : List Invoice :=
  match s.cell with
  | .good invoices => invoices
  | _ => []

/-- The raw `localStorage.setItem` write of the serialized list: fails with
a quota error when `writeOk` is unset. -/
def setItemInvoices (s : BrowserStorage) (invoices : List Invoice) :
    Except StorageErr BrowserStorage :=
  if s.writeOk then .ok { s with cell := .good invoices }
  else .error .quotaExceeded

/-- Source `saveInvoices` (lines 105-112): the write failure is caught and
reported as a toast notification only; the function never rethrows, and on
failure the stored cell is left as it was. -/
def saveInvoices (s : BrowserStorage) (invoices : List Invoice) : BrowserStorage :=
  match setItemInvoices s invoices with
  | .ok s2 => s2
  | .error _ => s

/-- Source `addInvoice` (lines 120-152).  The fresh id produced by
`generateId()` is passed as a parameter.  When inline image data is present
and no hash is set, the data is hashed and stored in the image store; the
persisted record carries the hash and never the inline data. -/
def addInvoice (s : BrowserStorage) (img : ImageStore) (freshId : String)
    (invoice : Invoice) : BrowserStorage × ImageStore × Invoice :=
  let invoices := getInvoices s
  let hashAndImg : Option String × ImageStore :=
    if strTruthy invoice.icon_data ∧ ¬ strTruthy invoice.icon_hash then
      let d := jsOrEmpty invoice.icon_data
      (some (hashImage d), saveImageToIndexedDB img d (hashImage d))
    else (invoice.icon_hash, img)
  let newInvoice : Invoice :=
    { invoice with
      id := some freshId
      icon_name := jsOrStr invoice.icon_name ""
      icon_hash := jsOrNull hashAndImg.1
      icon_data := none
      service_date := some (jsOrEmpty invoice.service_date)
      service_description := some (jsOrEmpty invoice.service_description) }
  (saveInvoices s (invoices ++ [newInvoice]), hashAndImg.2, newInvoice)

/-- Failures of `updateInvoice`: missing id (thrown as "Invoice ID is
required for updates") and unknown id (thrown as "Invoice not found"). -/
inductive UpdateErr where
  | validationError : UpdateErr
  | notFoundError : UpdateErr
deriving DecidableEq, Repr

/-- Source `updateInvoice` (lines 155-201).  Fails before any write when the
id is falsy or not present in the stored list, so an error result leaves
both stores untouched.  With new inline data the image is re-hashed and
stored; with neither inline data nor a truthy hash, the hash of the stored
record is carried forward, and an empty icon name is replaced by the stored
one. -/
def updateInvoice (s : BrowserStorage) (img : ImageStore) (invoice : Invoice) :
    Except UpdateErr (BrowserStorage × ImageStore × Invoice) :=
  if strTruthy invoice.id = false then .error .validationError
  else
    let invoices := getInvoices s
    match invoices.findIdx? (fun inv => inv.id == invoice.id) with
    | none => .error .notFoundError
    | some index =>
      let prev := invoices.getD index default
      let hashAndImg : Option String × ImageStore :=
        if strTruthy invoice.icon_data then
          let d := jsOrEmpty invoice.icon_data
          (some (hashImage d), saveImageToIndexedDB img d (hashImage d))
        else if strTruthy invoice.icon_hash = false then (prev.icon_hash, img)
        else (invoice.icon_hash, img)
      let newName :=
        if invoice.icon_name = "" ∧ prev.icon_name ≠ "" then prev.icon_name
        else invoice.icon_name
      let updatedInvoice : Invoice :=
        { invoice with
          icon_name := newName
          icon_hash := hashAndImg.1
          icon_data := none }
      .ok (saveInvoices s (invoices.set index updatedInvoice), hashAndImg.2, updatedInvoice)

/-- Source `deleteInvoice` (lines 204-214): keep the records whose id
differs, write the list back; nothing is thrown in any branch. -/
def deleteInvoice (s : BrowserStorage) (id : String) : BrowserStorage :=
  saveInvoices s ((getInvoices s).filter (fun invoice => invoice.id != some id))

/-- The parsed YAML settings dictionary handed to `importInvoiceSettings`:
every recognized key is optional (absent keys are `none`); unknown keys are
ignored by the import and so are not modelled.  The YAML dump/load pair is
the identity on this structured value. -/
structure InvoiceSettings where
  id : Option String
  client_name : Option String
  client_address : Option String
  services : Option (List String)
  service_date : Option String
  service_description : Option String
  payment_terms_days : Option Int
  invoice_number : Option Int
  invoice_date : Option String
  company_name : Option String
  hourly_rate : Option Rat
  vat_rate : Option Rat
  account_number : Option String
  sort_code : Option String
  bank_address : Option String
  company_number : Option String
  vat_number : Option String
  registered_address : Option String
  email : Option String
  contact_number : Option String
  column_widths : Option (List Rat)
  font_name : Option String
  icon_name : Option String
  icon_hash : Option String
  icon_data : Option String
  pdf_url : Option String
  paid : Option Bool
deriving DecidableEq, Repr

/-- Source `exportAsYaml` (InvoiceForm, the `yaml.dump(formData)` call)
composed with the YAML load on the import side: every field of the form
record appears in the dump under its own key; optional fields that are
unset stay absent. -/
def exportAsYaml (formData : Invoice) : InvoiceSettings :=
  { id := formData.id
    client_name := some formData.client_name
    client_address := some formData.client_address
    services := some formData.services
    service_date := formData.service_date
    service_description := formData.service_description
    payment_terms_days := some formData.payment_terms_days
    invoice_number := some formData.invoice_number
    invoice_date := some formData.invoice_date
    company_name := some formData.company_name
    hourly_rate := some formData.hourly_rate
    vat_rate := some formData.vat_rate
    account_number := some formData.account_number
    sort_code := some formData.sort_code
    bank_address := some formData.bank_address
    company_number := some formData.company_number
    vat_number := some formData.vat_number
    registered_address := some formData.registered_address
    email := some formData.email
    contact_number := some formData.contact_number
    column_widths := some formData.column_widths
    font_name := some formData.font_name
    icon_name := some formData.icon_name
    icon_hash := formData.icon_hash
    icon_data := formData.icon_data
    pdf_url := formData.pdf_url
    paid := formData.paid }

/-- Models `settings.x || d` on an optional string key. -/
def jsOrO (o : Option String) (d : String) : String :=
  match o with
  | none => d
  | some s => if s = "" then d else s

/-- Models `Number(settings.x) || d` on an optional integer key: an absent
key gives NaN which is falsy, and so does the value 0. -/
def jsNumOrInt (o : Option Int) (d : Int) : Int :=
  match o with
  | none => d
  | some n => if n = 0 then d else n

/-- Models `Number(settings.x) || d` on an optional rational key. -/
def jsNumOrRat (o : Option Rat) (d : Rat) : Rat :=
  match o with
  | none => d
  | some n => if n = 0 then d else n

/-- Source `importInvoiceSettings` (invoiceService.ts lines 290-326).
`today` is the value of `new Date().toLocaleDateString("en-GB")` used as
default invoice date.  Keys the import does not read (id, icon hash, pdf
url, paid) are absent from the constructed record. -/
def importInvoiceSettings (today : String) (settings : InvoiceSettings) : Invoice :=
  { id := none
    client_name := jsOrO settings.client_name ""
    client_address := jsOrO settings.client_address ""
    services := settings.services.getD [""]
    service_date := some (jsOrO settings.service_date "")
    service_description := some (jsOrO settings.service_description "")
    payment_terms_days := jsNumOrInt settings.payment_terms_days 30
    invoice_number := jsNumOrInt settings.invoice_number 1000
    invoice_date := jsOrO settings.invoice_date today
    company_name := jsOrO settings.company_name ""
    hourly_rate := jsNumOrRat settings.hourly_rate 300
    vat_rate := jsNumOrRat settings.vat_rate 20
    account_number := jsOrO settings.account_number ""
    sort_code := jsOrO settings.sort_code ""
    bank_address := jsOrO settings.bank_address ""
    company_number := jsOrO settings.company_number ""
    vat_number := jsOrO settings.vat_number ""
    registered_address := jsOrO settings.registered_address ""
    email := jsOrO settings.email ""
    contact_number := jsOrO settings.contact_number ""
    column_widths := settings.column_widths.getD [2.5, 3.5]
    font_name := jsOrO settings.font_name "Calibri"
    icon_name := jsOrO settings.icon_name ""
    icon_hash := none
    icon_data := jsOrNull settings.icon_data
    pdf_url := none
    paid := none }

/-- Value of the captured group of `(\d+\.?\d*)` fed to `parseFloat`:
integer digits plus fractional digits scaled down. -/
def hourDigitsVal (intPart fracPart : List Char) : Rat :=
  (digitsToNat intPart : Rat) + (digitsToNat fracPart : Rat) / (10 : Rat) ^ fracPart.length

/-- Attempt the tail of the regex `\((\d+\.?\d*)\s*hour` just after a
literal open parenthesis: a digit run, an optional dot with further digits,
optional whitespace, then the word hour case-insensitively. -/
def matchHourAt (cs : List Char) : Option Rat :=
  let intPart := cs.takeWhile (fun c => c.isDigit)
  if intPart.isEmpty then none
  else
    let rest := cs.drop intPart.length
    let fracAndRest : List Char × List Char :=
      match rest with
      | '.' :: r => (r.takeWhile (fun c => c.isDigit), r.drop (r.takeWhile (fun c => c.isDigit)).length)
      | _ => ([], rest)
    let rest3 := fracAndRest.2.dropWhile (fun c => c.isWhitespace)
    if (rest3.take 4).map jsToLowerChar = ['h', 'o', 'u', 'r'] then
      some (hourDigitsVal intPart fracAndRest.1)
    else none

/-- Leftmost-match scan of `service.match(/\((\d+\.?\d*)\s*hour/i)`:
try the pattern at each open parenthesis from the left. -/
def scanHours : List Char → Option Rat
  | [] => none
  | c :: rest =>
    if c = '(' then
      match matchHourAt rest with
      | some q => some q
      | none => scanHours rest
    else scanHours rest

/-- Hour contribution of one service line (InvoiceList `calculateTotal`
body): the captured hour count, or exactly 1 when the pattern is absent. -/
def lineHours (service : String) : Rat :=
  (scanHours service.data).getD 1

/-- Source `calculateTotal` (InvoiceList lines 120-150): sum the per-line
hours, multiply by the hourly rate, add VAT. -/
def calculateTotal (invoice : Invoice) : Rat :=
  let totalHours := invoice.services.foldl (fun acc service => acc + lineHours service) 0
  let subtotal := totalHours * invoice.hourly_rate
  let vat := subtotal * (invoice.vat_rate / 100)
  subtotal + vat

/-- Sortable columns of the invoice list (the `SortField` union type). -/
inductive SortField where
  | invoice_number | client_name | invoice_date | service_date
  | service_description | amount | status
deriving DecidableEq, Repr

/-- Sort direction (the `SortDirection` union type). -/
inductive SortDirection where
  | asc | desc
deriving DecidableEq, Repr

/-- Proleptic-Gregorian day count since 1970-01-01 for a civil date with
month in 1..12 (the day may overflow its month, matching the JS `Date`
constructor, which normalizes day overflow by adding days). -/
def daysFromCivil (y m d : Int) : Int :=
  let yy := if m ≤ 2 then y - 1 else y
  let era := yy / 400
  let yoe := yy - era * 400
  let mp := (m + 9) % 12
  let doy := (153 * mp + 2) / 5 + d - 1
  let doe := yoe * 365 + yoe / 4 - yoe / 100 + doy
  era * 146097 + doe - 719468

/-- Models `new Date(year, month, day).getTime()` for integer arguments:
the month (0-based, any integer) is normalized into the year, then the
civil day count is scaled to milliseconds.  The local time-zone offset is
taken as zero (see the module header). -/
def jsDateTime (year month day : Int) : Int :=
  let y := year + month / 12
  let m := month % 12
  (daysFromCivil y (m + 1) 1 + (day - 1)) * 86400000

/-- The year widening inside `parseInvoiceDate`:
`year < 100 ? 2000 + year : year`. -/
def jsFullYear (year : Int) : Int :=
  if year < 100 then 2000 + year else year

/-- Models JS `dateString.split(".")` on the character list: the groups of
characters between the dot separators, in order, with empty groups kept. -/
def splitDots (cs : List Char) : List (List Char) :=
  match cs with
  | [] => [[]]
  | c :: rest =>
    if c = '.' then [] :: splitDots rest
    else
      match splitDots rest with
      | g :: gs => (c :: g) :: gs
      | [] => [[c]]

/-- Source `parseInvoiceDate` (InvoiceList lines 72-79): split on dots,
parse day, month, year with `parseInt`, widen a two-digit year by 2000 and
build a `Date`; `none` models an invalid date (NaN time), which arises when
any component fails to parse (a missing part is the absent-index access
`parts[i]`, whose `parseInt` is NaN). -/
def parseInvoiceDate (dateString : String) : Option Int :=
  let parts := (splitDots dateString.data).map String.mk
  match jsParseInt (parts.getD 2 ""), jsParseInt (parts.getD 1 ""), jsParseInt (parts.getD 0 "") with
  | some year, some month, some day =>
    some (jsDateTime (jsFullYear year) (month - 1) day)
  | _, _, _ => none

/-- Difference of two possibly-invalid date times, as the sort comparator
computes `dateA.getTime() - dateB.getTime()`; a NaN result is mapped to 0
by the ECMAScript SortCompare step. -/
def nanSub (a b : Option Int) : Int :=
  match a, b with
  | some x, some y => x - y
  | _, _ => 0

/-- Models `a.localeCompare(b)`: sign of the string comparison (the
locale-aware collation is modelled as code-point order). -/
def localeCompare (a b : String) : Rat :=
  if a < b then -1 else if b < a then 1 else 0

/-- The filter predicate of `getFilteredAndSortedInvoices` (InvoiceList
lines 168-172): lower-cased query against lower-cased client and company
names, and the raw query against the decimal rendering of the invoice
number. -/
def invoiceMatches (searchQuery : String) (invoice : Invoice) : Bool :=
  jsIncludes (jsToLower invoice.client_name) (jsToLower searchQuery) ||
  jsIncludes (jsToLower invoice.company_name) (jsToLower searchQuery) ||
  jsIncludes (jsNumToString invoice.invoice_number) searchQuery

/-- The comparator body of `getFilteredAndSortedInvoices` (lines 176-218),
before the direction sign is applied. -/
def compareInvoices (sortField : SortField) (a b : Invoice) : Rat :=
  match sortField with
  | .invoice_number => ((a.invoice_number - b.invoice_number : Int) : Rat)
  | .client_name => localeCompare a.client_name b.client_name
  | .invoice_date =>
    ((nanSub (parseInvoiceDate a.invoice_date) (parseInvoiceDate b.invoice_date) : Int) : Rat)
  | .service_date =>
    if strTruthy a.service_date ∧ strTruthy b.service_date then
      ((nanSub (parseInvoiceDate (jsOrEmpty a.service_date))
          (parseInvoiceDate (jsOrEmpty b.service_date)) : Int) : Rat)
    else if strTruthy a.service_date then 1
    else if strTruthy b.service_date then -1
    else 0
  | .service_description =>
    localeCompare (jsOrEmpty a.service_description) (jsOrEmpty b.service_description)
  | .amount => calculateTotal a - calculateTotal b
  | .status =>
    (if strTruthy a.pdf_url then (1 : Rat) else 0) - (if strTruthy b.pdf_url then (1 : Rat) else 0)

/-- Source `getFilteredAndSortedInvoices` (lines 166-227): filter by the
search query, then stable-sort by the direction-adjusted comparator. -/
def getFilteredAndSortedInvoices (invoices : List Invoice) (searchQuery : String)
    (sortField : SortField) (sortDirection : SortDirection) : List Invoice :=
  let filtered := invoices.filter (invoiceMatches searchQuery)
  filtered.mergeSort (fun a b =>
    let comparison := compareInvoices sortField a b
    decide ((if sortDirection = .asc then comparison else -comparison) ≤ 0))

/-- A concrete invoice record used by the concrete instances below. -/
def sampleInvoice : Invoice :=
  { id := none
    client_name := "Jane Doe"
    client_address := "1 High Street"
    services := ["Consulting"]
    service_date := some "01.04.2025"
    service_description := some "April consulting"
    payment_terms_days := 30
    invoice_number := 1000
    invoice_date := "21.04.25"
    company_name := "Acme Ltd"
    hourly_rate := 300
    vat_rate := 20
    account_number := "12345678"
    sort_code := "12-34-56"
    bank_address := "2 Bank Street"
    company_number := "C123"
    vat_number := "GB123"
    registered_address := "3 Registered Road"
    email := "jane@example.com"
    contact_number := "07000000000"
    column_widths := [2.5, 3.5]
    font_name := "Calibri"
    icon_name := ""
    icon_hash := none
    icon_data := none
    pdf_url := none
    paid := none }

/-- The record of the worked total-calculation scenario. -/
def c4rec : Invoice :=
  { sampleInvoice with
    services := ["Consulting (2 hours)", "Review"]
    hourly_rate := 300
    vat_rate := 20 }

/-- A storage state whose underlying write fails (quota exhausted). -/
def c2state : BrowserStorage := { cell := .good [], writeOk := false }

/-- A stored record with a known id, for the delete scenarios. -/
def c7rec : Invoice := { sampleInvoice with id := some "a" }

/-- A storage state holding that record whose write fails. -/
def c7state : BrowserStorage := { cell := .good [c7rec], writeOk := false }

/-- The same state with a working write. -/
def c7stateOk : BrowserStorage := { cell := .good [c7rec], writeOk := true }

/-- Projection of an Except result to its success value. -/
def exceptOk {ε α : Type} : Except ε α → Option α
  | .ok a => some a
  | .error _ => none

/-- A populated storage state with one stored record of id "a". -/
def c5state : BrowserStorage := { cell := .good [c7rec], writeOk := true }

/-- The stored record of the concrete C3 scenario: it carries a logo. -/
def c3prev : Invoice :=
  { sampleInvoice with id := some "a", icon_hash := some "abc123", icon_name := "logo.png" }

/-- The incoming update of the concrete C3 scenario: same id, no inline
data, no asset reference, empty icon name. -/
def c3new : Invoice :=
  { sampleInvoice with id := some "a", icon_name := "", icon_data := none, icon_hash := none }

/-- The concrete C3 storage state. -/
def c3state : BrowserStorage := { cell := .good [c3prev], writeOk := true }

/-- The record of the C1 counterexample: zero payment terms. -/
def c1rec : Invoice := { sampleInvoice with payment_terms_days := 0 }

/-- A character that is not an ASCII letter of either case. -/
abbrev noLetterAZ (c : Char) : Prop :=
  ¬('A' ≤ c ∧ c ≤ 'Z') ∧ ¬('a' ≤ c ∧ c ≤ 'z')

/-- Claim-side predicate for C8: the query occurs case-insensitively as a
contiguous substring of the text. -/
def ciSubstring (query text : String) : Prop :=
  (jsToLower query).data <:+: (jsToLower text).data

/-- A record dated with a two-digit year (parsed as 2099). -/
def c10recA : Invoice :=
  { sampleInvoice with id := some "r99", invoice_number := 2, invoice_date := "01.01.99" }

/-- A record dated with a four-digit twentieth-century year. -/
def c10recB : Invoice :=
  { sampleInvoice with id := some "r75", invoice_number := 1, invoice_date := "15.06.1975" }

/-- C6 counterexample: at the empty payload the round trip fails — the
payload is stored under its key, but the read coerces the falsy result to
null, so get(put of the empty string) is none rather than the payload. -/
theorem putImage_empty_payload_not_returned :
    getImageFromIndexedDB (putImage emptyImages "").1 (putImage emptyImages "").2 = none := by
  simp [putImage, getImageFromIndexedDB, saveImageToIndexedDB, jsOrNull, strTruthy]

/-- C6 amended: content-addressed asset store.  For every store state and
every nonempty payload, getting the key returned by put yields the payload
back (at the empty payload the read coerces the falsy result to null);
for all payloads, putting the same payload twice yields the same key both
times (the hash is a pure function) and the second put leaves the store
unchanged. -/
theorem putImage_roundtrip_idempotent :
    ∀ (store : ImageStore) (p : String),
      (p ≠ "" →
        getImageFromIndexedDB (putImage store p).1 (putImage store p).2 = some p) ∧
      (putImage (putImage store p).1 p).2 = (putImage store p).2 ∧
      (putImage (putImage store p).1 p).1 = (putImage store p).1 := by
  intro store p
  refine ⟨?_, rfl, ?_⟩
  · intro hp
    simp [putImage, getImageFromIndexedDB, saveImageToIndexedDB, jsOrNull, strTruthy, hp]
  · funext k
    by_cases hk : k = hashImage p <;>
      simp [putImage, saveImageToIndexedDB, hk]

/-- Witness for the C6 amended theorem at a concrete nonempty payload. -/
theorem putImage_roundtrip_idempotent_witness :
    getImageFromIndexedDB (putImage emptyImages "img").1 (putImage emptyImages "img").2 =
      some "img" ∧
    (putImage (putImage emptyImages "img").1 "img").2 = (putImage emptyImages "img").2 ∧
    (putImage (putImage emptyImages "img").1 "img").1 = (putImage emptyImages "img").1 :=
  ⟨(putImage_roundtrip_idempotent emptyImages "img").1 (by decide),
   (putImage_roundtrip_idempotent emptyImages "img").2.1,
   (putImage_roundtrip_idempotent emptyImages "img").2.2⟩

/-- C9: reading the record collection is total.  For every storage state,
getInvoices returns a list: the empty list when the key is absent and when
the stored value does not parse as JSON, and the stored list otherwise. -/
theorem getInvoices_total :
    ∀ (w : Bool) (invoices : List Invoice),
      getInvoices { cell := .absent, writeOk := w } = [] ∧
      getInvoices { cell := .corrupt, writeOk := w } = [] ∧
      getInvoices { cell := .good invoices, writeOk := w } = invoices := by
  intro w invoices
  exact ⟨rfl, rfl, rfl⟩

/-- Folding the per-line hour contributions equals the sum of the map. -/
theorem foldl_add_lineHours (l : List String) (a : Rat) :
    l.foldl (fun acc s => acc + lineHours s) a = a + (l.map lineHours).sum := by
  induction l generalizing a with
  | nil => simp
  | cons x xs ih => simp [ih, add_assoc]

/-- C4: computed total.  Every record total equals the sum of per-line hour
contributions (the captured hour count of the parenthesized hour pattern,
or exactly 1 when the pattern is absent) times the hourly rate times
(1 + VAT/100); the worked scenario with services "Consulting (2 hours)" and
"Review" at rate 300 and VAT 20 totals 1080, with "Review" pattern-free and
contributing the default 1 hour. -/
theorem calculateTotal_formula :
    (∀ invoice : Invoice,
      calculateTotal invoice =
        (invoice.services.map lineHours).sum * invoice.hourly_rate *
          (1 + invoice.vat_rate / 100)) ∧
    lineHours "Consulting (2 hours)" = 2 ∧
    scanHours "Review".data = none ∧
    lineHours "Review" = 1 ∧
    calculateTotal c4rec = 1080 := by
  have hf : ∀ invoice : Invoice,
      calculateTotal invoice =
        (invoice.services.map lineHours).sum * invoice.hourly_rate *
          (1 + invoice.vat_rate / 100) := by
    intro invoice
    unfold calculateTotal
    rw [foldl_add_lineHours]
    ring
  have hscanA : scanHours "Consulting (2 hours)".data = some (hourDigitsVal ['2'] []) := rfl
  have hA : lineHours "Consulting (2 hours)" = 2 := by
    rw [lineHours, hscanA]
    have h2 : digitsToNat ['2'] = 2 := rfl
    have h0 : digitsToNat ([] : List Char) = 0 := rfl
    simp only [Option.getD_some, hourDigitsVal, h2, h0]
    norm_num
  have hscanB : scanHours "Review".data = none := rfl
  have hB : lineHours "Review" = 1 := by
    rw [lineHours, hscanB]
    rfl
  refine ⟨hf, hA, hscanB, hB, ?_⟩
  rw [hf c4rec]
  show ((["Consulting (2 hours)", "Review"].map lineHours).sum * 300 * (1 + 20 / 100) : Rat) = 1080
  rw [List.map_cons, List.map_cons, List.map_nil, hA, hB]
  norm_num

/-- C2 counterexample: in a state where the underlying collection write
fails, addInvoice does not fail — it completes and returns the new record
(first and third conjuncts), even though the raw setItem write of the very
list addInvoice produces raises the quota error (second conjunct); the
persisted cell is left unchanged.  This refutes the claim that a
StorageError is propagated to the caller of addInvoice. -/
theorem addInvoice_swallows_write_failure :
    (addInvoice c2state emptyImages "id1" sampleInvoice).2.2.id = some "id1" ∧
    setItemInvoices c2state
      (getInvoices c2state ++ [(addInvoice c2state emptyImages "id1" sampleInvoice).2.2]) =
      .error .quotaExceeded ∧
    (addInvoice c2state emptyImages "id1" sampleInvoice).1.cell = .good [] := by
  exact ⟨rfl, rfl, rfl⟩

/-- C2 amended: when the underlying storage write fails, the failure is
caught inside saveInvoices and surfaced only as a notification; addInvoice
completes normally, returning the new record with the fresh id, and the
persisted collection (the whole storage state) is unchanged. -/
theorem addInvoice_write_failure_leaves_state :
    ∀ (s : BrowserStorage) (img : ImageStore) (freshId : String) (invoice : Invoice),
      s.writeOk = false →
      (addInvoice s img freshId invoice).1 = s ∧
      (addInvoice s img freshId invoice).2.2.id = some freshId := by
  intro s img freshId invoice hw
  constructor
  · simp [addInvoice, saveInvoices, setItemInvoices, hw]
  · simp [addInvoice]

/-- Witness for the C2 amended theorem at a concrete failing state. -/
theorem addInvoice_write_failure_leaves_state_witness :
    (addInvoice c2state emptyImages "id1" sampleInvoice).1 = c2state ∧
    (addInvoice c2state emptyImages "id1" sampleInvoice).2.2.id = some "id1" :=
  addInvoice_write_failure_leaves_state c2state emptyImages "id1" sampleInvoice rfl

/-- C7 counterexample: in a state where the underlying write fails,
deleteInvoice followed by the list read still yields the record with the
deleted id — the claim quantifies over states including failing writes, and
fails there. -/
theorem deleteInvoice_write_failure_keeps_record :
    getInvoices (deleteInvoice c7state "a") = [c7rec] ∧ c7rec.id = some "a" :=
  ⟨rfl, rfl⟩

/-- C7 amended: when the underlying write succeeds, deleteInvoice followed
by the list read yields a sequence containing no record with that id (and
deleteInvoice never throws for any id, present or not: it is a total
function whose only failure path, the raw write, is caught inside
saveInvoices). -/
theorem deleteInvoice_removes_id_on_successful_write :
    ∀ (s : BrowserStorage) (id : String),
      s.writeOk = true →
      ((getInvoices (deleteInvoice s id)).all (fun r => r.id != some id)) = true := by
  intro s id hw
  simp only [deleteInvoice, saveInvoices, setItemInvoices, hw, if_true]
  rw [List.all_eq_true]
  intro r hr
  exact (List.mem_filter.mp hr).2

/-- Witness for the C7 amended theorem at a concrete state. -/
theorem deleteInvoice_removes_id_on_successful_write_witness :
    ((getInvoices (deleteInvoice c7stateOk "a")).all (fun r => r.id != some "a")) = true :=
  deleteInvoice_removes_id_on_successful_write c7stateOk "a" rfl

/-- C5: update error taxonomy.  updateInvoice fails with the validation
error when the record id is absent, and with the not-found error when no
stored record carries that id; in both cases the error is raised before any
write, so the function returns no new storage state and the stored
collection is untouched. -/
theorem updateInvoice_error_taxonomy :
    ∀ (s : BrowserStorage) (img : ImageStore) (invoice : Invoice),
      (invoice.id = none → updateInvoice s img invoice = .error .validationError) ∧
      (∀ idStr, invoice.id = some idStr → idStr ≠ "" →
        (∀ r ∈ getInvoices s, r.id ≠ invoice.id) →
        updateInvoice s img invoice = .error .notFoundError) := by
  intro s img invoice
  constructor
  · intro hid
    simp [updateInvoice, strTruthy, hid]
  · intro idStr hid hne habs
    have htr : strTruthy invoice.id = true := by
      simp [strTruthy, hid, hne]
    have hfind : (getInvoices s).findIdx? (fun inv => inv.id == invoice.id) = none := by
      rw [List.findIdx?_eq_none_iff]
      intro x hx
      simpa using habs x hx
    simp [updateInvoice, htr, hfind]

/-- Witness for the C5 theorem: both failure modes at concrete inputs. -/
theorem updateInvoice_error_taxonomy_witness :
    updateInvoice c5state emptyImages { sampleInvoice with id := none } =
      .error .validationError ∧
    updateInvoice c5state emptyImages { sampleInvoice with id := some "zz" } =
      .error .notFoundError :=
  ⟨(updateInvoice_error_taxonomy c5state emptyImages _).1 rfl,
   (updateInvoice_error_taxonomy c5state emptyImages _).2 "zz" rfl (by decide) (by decide)⟩

/-- C3: logo preservation on update.  For a stored record with asset
reference `some h`, updating with a record of the same id carrying neither
inline image data nor an asset reference yields an updated record whose
asset reference is still `some h`; when the new icon name is empty the
stored icon name is carried forward; and on a successful write the stored
list holds the updated record (with the preserved reference) at the same
position. -/
theorem updateInvoice_preserves_logo :
    ∀ (s : BrowserStorage) (img : ImageStore) (invoice : Invoice) (l : List Invoice)
      (i : Nat) (prev : Invoice) (h : String) (idStr : String),
      s.cell = .good l →
      invoice.id = some idStr → idStr ≠ "" →
      l.findIdx? (fun inv => inv.id == invoice.id) = some i →
      l[i]? = some prev →
      prev.icon_hash = some h →
      invoice.icon_data = none →
      invoice.icon_hash = none →
      (exceptOk (updateInvoice s img invoice)).map (fun t => t.2.2.icon_hash) =
        some (some h) ∧
      (invoice.icon_name = "" →
        (exceptOk (updateInvoice s img invoice)).map (fun t => t.2.2.icon_name) =
          some prev.icon_name) ∧
      (s.writeOk = true →
        (exceptOk (updateInvoice s img invoice)).map
            (fun t => (getInvoices t.1)[i]?.map Invoice.icon_hash) =
          some (some (some h))) := by
  intro s img invoice l i prev h idStr hcell hid hne hfind hget hprev hdata hhash
  have htr : strTruthy invoice.id = true := by simp [strTruthy, hid, hne]
  have hinv : getInvoices s = l := by simp [getInvoices, hcell]
  have hlen : i < l.length := by
    by_contra hcon
    rw [List.getElem?_eq_none (by omega)] at hget
    exact Option.noConfusion hget
  have hgetD : l.getD i default = prev := by
    rw [List.getD_eq_getElem?_getD, hget]
    rfl
  have hres : updateInvoice s img invoice =
      .ok (saveInvoices s (l.set i
            { invoice with
              icon_name := if invoice.icon_name = "" ∧ prev.icon_name ≠ "" then prev.icon_name
                else invoice.icon_name
              icon_hash := prev.icon_hash
              icon_data := none }), img,
          { invoice with
            icon_name := if invoice.icon_name = "" ∧ prev.icon_name ≠ "" then prev.icon_name
              else invoice.icon_name
            icon_hash := prev.icon_hash
            icon_data := none }) := by
    simp only [updateInvoice, htr, hinv, hfind, hgetD]
    simp [strTruthy, hdata, hhash]
  rw [hres]
  refine ⟨?_, ?_, ?_⟩
  · simp [exceptOk, hprev]
  · intro hname
    by_cases hp : prev.icon_name = "" <;> simp [exceptOk, hname, hp]
  · intro hw
    simp [exceptOk, saveInvoices, setItemInvoices, hw, getInvoices,
      List.getElem?_set_self hlen, hprev]

/-- Witness for the C3 theorem at the concrete scenario. -/
theorem updateInvoice_preserves_logo_witness :
    (exceptOk (updateInvoice c3state emptyImages c3new)).map (fun t => t.2.2.icon_hash) =
      some (some "abc123") ∧
    (exceptOk (updateInvoice c3state emptyImages c3new)).map (fun t => t.2.2.icon_name) =
      some c3prev.icon_name ∧
    (exceptOk (updateInvoice c3state emptyImages c3new)).map
        (fun t => (getInvoices t.1)[0]?.map Invoice.icon_hash) =
      some (some (some "abc123")) := by
  have happ := updateInvoice_preserves_logo c3state emptyImages c3new [c3prev] 0 c3prev
    "abc123" "a" rfl rfl (by decide) (by decide) rfl rfl rfl rfl
  exact ⟨happ.1, happ.2.1 rfl, happ.2.2 rfl⟩

/-- Defaulting with an empty default is the identity on present strings. -/
theorem jsOrO_some_empty (s : String) : jsOrO (some s) "" = s := by
  by_cases hs : s = "" <;> simp [jsOrO, hs]

/-- Defaulting keeps a present nonempty string. -/
theorem jsOrO_some_ne (s d : String) (h : s ≠ "") : jsOrO (some s) d = s := by
  simp [jsOrO, h]

/-- Numeric defaulting keeps a present nonzero integer. -/
theorem jsNumOrInt_some_ne (n d : Int) (h : n ≠ 0) : jsNumOrInt (some n) d = n := by
  simp [jsNumOrInt, h]

/-- Numeric defaulting keeps a present nonzero rational. -/
theorem jsNumOrRat_some_ne (q d : Rat) (h : q ≠ 0) : jsNumOrRat (some q) d = q := by
  simp [jsNumOrRat, h]

/-- Defaulting with an empty default agrees with the empty-string
coalescing of an optional value. -/
theorem jsOrO_empty_eq_jsOrEmpty (o : Option String) : jsOrO o "" = jsOrEmpty o := by
  cases o with
  | none => rfl
  | some s =>
    rw [jsOrO_some_empty]
    rfl

/-- C1 amended: round trip of the settings codec.  For every record whose
numeric fields are nonzero and whose font name and invoice date are
nonempty, importing the export reproduces every field the import codec
reads (falsy values fall back to the documented defaults); the optional
service date and service description always come back as present strings,
an absent one importing as the empty string; the id, the asset reference
and the generated-artifact and paid fields are not read by the importer
and come back unset, and present inline image data survives the trip only
when nonempty. -/
theorem importExport_roundtrip :
    ∀ (today : String) (r : Invoice),
      r.payment_terms_days ≠ 0 → r.invoice_number ≠ 0 →
      r.hourly_rate ≠ 0 → r.vat_rate ≠ 0 →
      r.invoice_date ≠ "" → r.font_name ≠ "" →
      importInvoiceSettings today (exportAsYaml r) =
        { r with
          id := none
          service_date := some (jsOrEmpty r.service_date)
          service_description := some (jsOrEmpty r.service_description)
          icon_hash := none
          icon_data := jsOrNull r.icon_data
          pdf_url := none
          paid := none } := by
  intro today r hpt hin hhr hvr hdate hfont
  simp only [importInvoiceSettings, exportAsYaml]
  simp [jsOrO_some_empty, jsOrO_some_ne _ _ hdate, jsOrO_some_ne _ _ hfont,
    jsNumOrInt_some_ne _ _ hpt, jsNumOrInt_some_ne _ _ hin,
    jsNumOrRat_some_ne _ _ hhr, jsNumOrRat_some_ne _ _ hvr,
    jsOrO_empty_eq_jsOrEmpty, jsOrEmpty]

/-- Witness for the C1 amended theorem at a concrete record. -/
theorem importExport_roundtrip_witness :
    importInvoiceSettings "11.10.2025" (exportAsYaml sampleInvoice) =
      { sampleInvoice with
        id := none
        service_date := some (jsOrEmpty sampleInvoice.service_date)
        service_description := some (jsOrEmpty sampleInvoice.service_description)
        icon_hash := none
        icon_data := jsOrNull sampleInvoice.icon_data
        pdf_url := none
        paid := none } :=
  importExport_roundtrip "11.10.2025" sampleInvoice
    (by decide) (by decide) (by norm_num [sampleInvoice]) (by norm_num [sampleInvoice])
    (by decide) (by decide)

/-- C1 counterexample: a persisted numeric field with value 0 is not
reproduced by the round trip — the import maps it to the default 30, so the
claim that numeric fields are reproduced exactly for all values including 0
is false. -/
theorem importExport_zero_not_reproduced :
    c1rec.payment_terms_days = 0 ∧
    (importInvoiceSettings "11.10.2025" (exportAsYaml c1rec)).payment_terms_days = 30 :=
  ⟨rfl, rfl⟩

/-- Character order coincides with the order of the code points. -/
theorem char_le_iff_toNat (a b : Char) : a ≤ b ↔ a.toNat ≤ b.toNat := by
  rw [Char.le_def, UInt32.le_def, BitVec.le_def]
  exact Iff.rfl

/-- Decimal digit characters are not letters. -/
theorem natDigitChar_noLetter (k : Nat) (hk : k < 10) : noLetterAZ (natDigitChar k) := by
  interval_cases k <;> decide

/-- Every character that the base-10 rendering loop emits on top of a
letter-free accumulator is letter-free. -/
theorem natToBaseAux_noLetter :
    ∀ (n : Nat) (acc : List Char), (∀ c ∈ acc, noLetterAZ c) →
      ∀ c ∈ natToBaseAux 10 n acc, noLetterAZ c := by
  intro n
  induction n using Nat.strong_induction_on with
  | _ n ih =>
    intro acc hacc c hc
    rw [natToBaseAux.eq_def] at hc
    split at hc
    · rcases List.mem_cons.mp hc with rfl | hmem
      · refine natDigitChar_noLetter n ?_
        omega
      · exact hacc _ hmem
    · rename_i hcond
      refine ih (n / 10) (Nat.div_lt_self (by omega) (by omega)) _ ?_ c hc
      intro c2 hc2
      rcases List.mem_cons.mp hc2 with rfl | hmem2
      · exact natDigitChar_noLetter (n % 10) (Nat.mod_lt _ (by omega))
      · exact hacc _ hmem2

/-- The decimal rendering of an integer contains no letters. -/
theorem jsNumToString_noLetter (n : Int) : ∀ c ∈ (jsNumToString n).data, noLetterAZ c := by
  have hdata : (jsNumToString n).data =
      if n < 0 then '-' :: natToBase 10 n.natAbs else natToBase 10 n.natAbs := by
    unfold jsNumToString
    split <;> rfl
  intro c hc
  rw [hdata] at hc
  split at hc
  · rcases List.mem_cons.mp hc with rfl | hmem
    · decide
    · exact natToBaseAux_noLetter _ [] (by simp) c hmem
  · exact natToBaseAux_noLetter _ [] (by simp) c hc

/-- Lowercasing fixes a list without uppercase letters. -/
theorem map_jsToLowerChar_fix (l : List Char) (hl : ∀ c ∈ l, ¬('A' ≤ c ∧ c ≤ 'Z')) :
    l.map jsToLowerChar = l := by
  induction l with
  | nil => rfl
  | cons x xs ih =>
    have hx : jsToLowerChar x = x := by
      unfold jsToLowerChar
      rw [if_neg (hl x (List.mem_cons_self x xs))]
    rw [List.map_cons, hx, ih (fun c hc => hl c (List.mem_cons_of_mem x hc))]

/-- Lowercasing an uppercase letter yields a lowercase letter. -/
theorem upper_toLower_isLower (c : Char) (hc : 'A' ≤ c ∧ c ≤ 'Z') :
    'a' ≤ jsToLowerChar c ∧ jsToLowerChar c ≤ 'z' := by
  have h1 : 65 ≤ c.toNat := (char_le_iff_toNat _ _).mp hc.1
  have h2 : c.toNat ≤ 90 := (char_le_iff_toNat _ _).mp hc.2
  have hofn : (Char.ofNat (c.toNat + 32)).toNat = c.toNat + 32 := by
    interval_cases hcn : c.toNat <;> decide
  unfold jsToLowerChar
  rw [if_pos hc]
  constructor
  · rw [char_le_iff_toNat, hofn]
    show 97 ≤ c.toNat + 32
    omega
  · rw [char_le_iff_toNat, hofn]
    show c.toNat + 32 ≤ 122
    omega

/-- Over a letter-free haystack, matching the lowercased needle is the same
as matching the raw needle. -/
theorem lower_infix_iff (q h : List Char) (hh : ∀ c ∈ h, noLetterAZ c) :
    (q.map jsToLowerChar <:+: h) ↔ (q <:+: h) := by
  by_cases hq : ∀ c ∈ q, ¬('A' ≤ c ∧ c ≤ 'Z')
  · rw [map_jsToLowerChar_fix q hq]
  · push_neg at hq
    obtain ⟨c, hcq, hcu⟩ := hq
    constructor
    · intro hinf
      exact absurd (upper_toLower_isLower c hcu)
        (hh _ (hinf.subset (List.mem_map_of_mem _ hcq))).2
    · intro hinf
      exact absurd hcu (hh c (hinf.subset hcq)).1

/-- The boolean includes test decides the infix relation. -/
theorem jsIncludes_iff (haystack needle : String) :
    jsIncludes haystack needle = true ↔ needle.data <:+: haystack.data := by
  unfold jsIncludes
  rw [List.any_eq_true]
  constructor
  · rintro ⟨t, ht, hp⟩
    rw [List.mem_tails] at ht
    rw [ List.isPrefixOf_iff_prefix] at hp
    exact List.infix_iff_prefix_suffix.mpr ⟨t, hp, ht⟩
  · intro hinf
    obtain ⟨t, hp, ht⟩ := List.infix_iff_prefix_suffix.mp hinf
    exact ⟨t, (List.mem_tails _ _).mpr ht, List.isPrefixOf_iff_prefix.mpr hp⟩

/-- Character data of the lowercased string. -/
theorem jsToLower_data (s : String) : (jsToLower s).data = s.data.map jsToLowerChar := rfl

/-- C8: filter semantics.  A record is in the filtered and sorted view
exactly when it is in the input list and the query occurs case-insensitively
as a substring of its client name, its company name, or the decimal-string
rendering of its invoice number; with the empty query the substring
condition is trivially true, so every record matches. -/
theorem filteredView_mem_iff :
    ∀ (invoices : List Invoice) (q : String) (sf : SortField) (sd : SortDirection)
      (r : Invoice),
      r ∈ getFilteredAndSortedInvoices invoices q sf sd ↔
        r ∈ invoices ∧
          (ciSubstring q r.client_name ∨ ciSubstring q r.company_name ∨
            ciSubstring q (jsNumToString r.invoice_number)) := by
  intro invoices q sf sd r
  unfold getFilteredAndSortedInvoices
  rw [(List.mergeSort_perm _ _).mem_iff, List.mem_filter]
  refine and_congr_right (fun _ => ?_)
  unfold invoiceMatches
  rw [Bool.or_eq_true, Bool.or_eq_true]
  unfold ciSubstring
  rw [jsIncludes_iff, jsIncludes_iff, jsIncludes_iff]
  have hnum := jsNumToString_noLetter r.invoice_number
  have hfix : (jsToLower (jsNumToString r.invoice_number)).data =
      (jsNumToString r.invoice_number).data := by
    rw [jsToLower_data]
    exact map_jsToLowerChar_fix _ (fun c hc => (hnum c hc).1)
  rw [hfix, jsToLower_data q, lower_infix_iff q.data _ hnum]
  rw [or_assoc]

/-- C10: two-digit years in the dd.mm.yy format are widened to 2000 + yy by
the date parser used for sorting, while four-digit years are taken verbatim
(first conjunct, since 1900 <= y).  Hence "01.01.99" parses to the instant
of 2099-01-01 and compares strictly after every four-digit
twentieth-century date, and the invoice-date sort comparator ranks the
two-digit-year record after the 1975 record. -/
theorem parseInvoiceDate_two_digit_years :
    ∀ (s : String) (y m d : Int),
      jsParseInt (((splitDots s.data).map String.mk).getD 2 "") = some y →
      jsParseInt (((splitDots s.data).map String.mk).getD 1 "") = some m →
      jsParseInt (((splitDots s.data).map String.mk).getD 0 "") = some d →
      1900 ≤ y → y ≤ 1999 → 1 ≤ m → m ≤ 12 → 1 ≤ d → d ≤ 31 →
      jsFullYear y = y ∧
      jsFullYear 99 = 2099 ∧
      parseInvoiceDate "01.01.99" = some (jsDateTime 2099 0 1) ∧
      parseInvoiceDate s = some (jsDateTime y (m - 1) d) ∧
      jsDateTime y (m - 1) d < jsDateTime 2099 0 1 ∧
      0 < compareInvoices .invoice_date c10recA c10recB := by
  intro s y m d h2 h1 h0 hy1 hy2 hm1 hm2 hd1 hd2
  have hfull : jsFullYear y = y := by
    unfold jsFullYear
    rw [if_neg (by omega)]
  refine ⟨hfull, by decide, by decide, ?_, ?_, ?_⟩
  · simp only [parseInvoiceDate]
    rw [h2, h1, h0]
    show some (jsDateTime (jsFullYear y) (m - 1) d) = some (jsDateTime y (m - 1) d)
    rw [hfull]
  · have hrhs : jsDateTime 2099 0 1 = 4070908800000 := by decide
    rw [hrhs]
    unfold jsDateTime
    have e1 : (m - 1) / 12 = 0 := by omega
    have e2 : (m - 1) % 12 = m - 1 := by omega
    rw [e1, e2]
    simp only [daysFromCivil]
    split <;> omega
  · have hpos : (0 : Int) < nanSub (parseInvoiceDate c10recA.invoice_date)
        (parseInvoiceDate c10recB.invoice_date) := by decide
    simp only [compareInvoices]
    exact_mod_cast hpos

/-- Witness for the C10 theorem at the concrete date 31.12.1999. -/
theorem parseInvoiceDate_two_digit_years_witness :
    jsFullYear 1999 = 1999 ∧
    jsFullYear 99 = 2099 ∧
    parseInvoiceDate "01.01.99" = some (jsDateTime 2099 0 1) ∧
    parseInvoiceDate "31.12.1999" = some (jsDateTime 1999 (12 - 1) 31) ∧
    jsDateTime 1999 (12 - 1) 31 < jsDateTime 2099 0 1 ∧
    0 < compareInvoices .invoice_date c10recA c10recB :=
  parseInvoiceDate_two_digit_years "31.12.1999" 1999 12 31 (by decide) (by decide)
    (by decide) (by decide) (by decide) (by decide) (by decide) (by decide) (by decide)
